import Mathlib

/-!
Verification of the web-proxy core (src/main.go) against its design
specification.  The Go functions are shallowly embedded as Lean
functions: pure string manipulation is translated directly, and the
handlers are translated as functions from an explicit environment
(describing the outcomes of the network and hijack operations) to a
trace of their observable effects.
-/

/-- Embeds Go strings.Split with a one-character separator: the list of
maximal sep-free segments, n+1 segments for n separators; the empty
string yields one empty segment. -/
def goSplit (sep : Char) : List Char → List (List Char)
  | [] => [[]]
  | c :: cs =>
    if c = sep then
      [] :: goSplit sep cs
    else
      match goSplit sep cs with
      | [] => [[c]]
      | h :: t => (c :: h) :: t

/-- Result of parseProxyURL: the returned (server, user, error) triple. -/
structure ParseResult where
  server : String
  user : String
  error : Option String
deriving DecidableEq, Repr

/-- Embeds parseProxyURL (src/main.go lines 33-46): strings.Split on "@";
with exactly two pieces the first is the user and the second the server,
with exactly one piece that piece is the server; in every case the
returned error is nil. -/
def parseProxyURL (s : String) : ParseResult :=
  let data := (goSplit '@' s.data).map String.mk
  if data.length = 2 then
    ⟨data.getD 1 "", data.getD 0 "", none⟩
  else if data.length = 1 then
    ⟨data.getD 0 "", "", none⟩
  else
    ⟨"", "", none⟩

/-- UTF-8 encoding of one code point, as Go produces for the bytes of a
string. -/
def utf8Bytes (c : Char) : List Nat :=
  let n := c.toNat
  if n < 128 then [n]
  else if n < 2048 then [192 + n / 64, 128 + n % 64]
  else if n < 65536 then [224 + n / 4096, 128 + (n / 64) % 64, 128 + n % 64]
  else [240 + n / 262144, 128 + (n / 4096) % 64, 128 + (n / 64) % 64, 128 + n % 64]

/-- The byte sequence of a Go string (UTF-8). -/
def strBytes (s : String) : List Nat :=
  (s.data.map utf8Bytes).flatten

/-- The standard base64 alphabet. -/
def b64Alphabet : List Char :=
  "ABCDEFGHIJKLMNOPQRSTUVWXYZabcdefghijklmnopqrstuvwxyz0123456789+/".data

/-- Character at a given index of the base64 alphabet. -/
def b64Char (n : Nat) : Char :=
  b64Alphabet.getD n 'A'

/-- Embeds encoding/base64 StdEncoding: 3-byte groups become 4 alphabet
characters, a trailing group of 2 or 1 bytes is padded with one or two
padding characters. -/
def base64Chunks : List Nat → List Char
  | b0 :: b1 :: b2 :: rest =>
    b64Char (b0 / 4) :: b64Char ((b0 % 4) * 16 + b1 / 16) ::
      b64Char ((b1 % 16) * 4 + b2 / 64) :: b64Char (b2 % 64) :: base64Chunks rest
  | [b0, b1] =>
    [b64Char (b0 / 4), b64Char ((b0 % 4) * 16 + b1 / 16), b64Char ((b1 % 16) * 4), '=']
  | [b0] =>
    [b64Char (b0 / 4), b64Char ((b0 % 4) * 16), '=', '=']
  | [] => []

/-- Embeds base64.StdEncoding.EncodeToString applied to the bytes of a
string. -/
def base64StdEncode (s : String) : String :=
  String.mk (base64Chunks (strBytes s))

/-- Outcomes of the environment-dependent operations performed by the
chained tunnel handler: whether the net.Dial to the upstream succeeds,
the status read by http.ReadResponse from the upstream (none models a
read or parse failure), whether the ResponseWriter supports hijacking,
whether the Hijack call succeeds, and the error text it reports when it
does not. -/
structure ChainedEnv where
  dialOk : Bool
  respStatus : Option Nat
  hijackSupported : Bool
  hijackOk : Bool
  hijackErrMsg : String
deriving DecidableEq, Repr

/-- Outcomes of the environment-dependent operations performed by the
direct tunnel handler. -/
structure DirectEnv where
  dialOk : Bool
  hijackSupported : Bool
  hijackOk : Bool
  hijackErrMsg : String
deriving DecidableEq, Repr

/-- Observable effects of one run of a tunnel handler.  writes lists the
status/body pairs passed to WriteHeader and http.Error in call order
(WriteHeader alone carries an empty body); dialTarget is the address the
handler dialed; dialTimeoutSecs is the dial timeout when one is used
(net.DialTimeout) and none for a plain net.Dial; dialAttempts counts the
dial calls made; sentUpstream is the CONNECT request written to the
upstream connection, when one was written; relayStarted records whether
the two transfer goroutines were spawned; closedOutbound records whether
the handler itself called Close on the outbound connection before
returning. -/
structure HandlerTrace where
  writes : List (Nat × String)
  dialTarget : Option String
  dialTimeoutSecs : Option Nat
  dialAttempts : Nat
  sentUpstream : Option String
  relayStarted : Bool
  closedOutbound : Bool
deriving DecidableEq, Repr

/-- The status actually committed on the client's HTTP response: Go's
ResponseWriter sends the first WriteHeader it receives and ignores later
ones as superfluous, so the client observes the head of the write list. -/
def committedStatus (t : HandlerTrace) : Option Nat :=
  t.writes.head?.map (fun w => w.1)

/-- Embeds the authorizationHeader variable of handleProxyTunneling
(src/main.go lines 77-81): empty unless credentials are present, in
which case it is the Proxy-Authorization header line with the base64
token. -/
def authorizationHeader (auth : String) : String :=
  if auth ≠ "" then
    "Proxy-Authorization: Basic " ++ base64StdEncode auth ++ "\r\n"
  else ""

/-- Embeds the connectRequest string of handleProxyTunneling
(src/main.go line 84): the CONNECT request line naming the original
target host, the Host header, the optional auth header, and the final
blank line. -/
def connectRequest (host auth : String) : String :=
  "CONNECT " ++ host ++ " HTTP/1.1\r\nHost: " ++ host ++ "\r\n" ++
    authorizationHeader auth ++ "\r\n"

/-- Embeds handleProxyTunneling (src/main.go lines 62-116) as a function
from the configured upstream spec, the request's target host and the
environment outcomes to the handler's effect trace.  The handler parses
the spec (500 on parse error), dials the upstream (503 on failure),
writes the CONNECT request, reads the upstream response (503 on read
failure), surfaces a non-200 upstream status verbatim, writes the 200
header, then hijacks (500 when unsupported, 503 with the error text when
the call fails) and finally starts the relay.  No branch calls Close on
the outbound connection. -/
def handleProxyTunneling (cfg host : String) (env : ChainedEnv) : HandlerTrace :=
  match (parseProxyURL cfg).error with
  | some _ => ⟨[(500, "Failed to parse proxy URL")], none, none, 0, none, false, false⟩
  | none =>
    if !env.dialOk then
      ⟨[(503, "Failed to connect to the second proxy")],
        some (parseProxyURL cfg).server, none, 1, none, false, false⟩
    else
      match env.respStatus with
      | none =>
        ⟨[(503, "Failed to read response from the second proxy")],
          some (parseProxyURL cfg).server, none, 1,
          some (connectRequest host (parseProxyURL cfg).user), false, false⟩
      | some s =>
        if s ≠ 200 then
          ⟨[(s, "Failed to connect to the host through the second proxy")],
            some (parseProxyURL cfg).server, none, 1,
            some (connectRequest host (parseProxyURL cfg).user), false, false⟩
        else if !env.hijackSupported then
          ⟨[(200, ""), (500, "Hijacking not supported")],
            some (parseProxyURL cfg).server, none, 1,
            some (connectRequest host (parseProxyURL cfg).user), false, false⟩
        else if !env.hijackOk then
          ⟨[(200, ""), (503, env.hijackErrMsg)],
            some (parseProxyURL cfg).server, none, 1,
            some (connectRequest host (parseProxyURL cfg).user), false, false⟩
        else
          ⟨[(200, "")],
            some (parseProxyURL cfg).server, none, 1,
            some (connectRequest host (parseProxyURL cfg).user), true, false⟩

/-- Embeds handleDirectTunneling (src/main.go lines 119-141): dials the
request's target host with net.DialTimeout and a 10-second bound (503 on
failure), writes the 200 header, hijacks (500 when unsupported, 503 with
the error text when the call fails) and starts the relay. -/
def handleDirectTunneling (host : String) (env : DirectEnv) : HandlerTrace :=
  if !env.dialOk then
    ⟨[(503, "Failed to connect to the host")], some host, some 10, 1, none, false, false⟩
  else if !env.hijackSupported then
    ⟨[(200, ""), (500, "Hijacking not supported")], some host, some 10, 1, none, false, false⟩
  else if !env.hijackOk then
    ⟨[(200, ""), (503, env.hijackErrMsg)], some host, some 10, 1, none, false, false⟩
  else
    ⟨[(200, "")], some host, some 10, 1, none, true, false⟩

/-- One observable action of a relay direction: a Read returning a chunk
from the source, a Write of a chunk to the destination, or a Close of
one of the two ends. -/
inductive RelayStep where
  | read (chunk : List Nat)
  | write (chunk : List Nat)
  | closeDest
  | closeSrc
deriving DecidableEq, Repr

/-- How the source stream ends once its chunks are exhausted: cleanly at
end-of-stream, or with an I/O error.  io.Copy stops in either case. -/
inductive StreamEnd where
  | eof
  | ioError
deriving DecidableEq, Repr

/-- Embeds transfer (src/main.go lines 159-163) as the sequence of
actions one relay direction performs when its source yields the given
chunks and then ends: io.Copy alternates a Read of each chunk with a
Write of that same chunk (no buffering or transformation), and when the
copy stops — at end-of-stream or on error alike — the deferred Close
calls run, source first then destination. -/
def transfer : List (List Nat) → StreamEnd → List RelayStep
  | [], _ => [RelayStep.closeSrc, RelayStep.closeDest]
  | c :: rest, e => RelayStep.read c :: RelayStep.write c :: transfer rest e

/-- The bytes a trace reads from the source, in order. -/
def readBytes : List RelayStep → List Nat
  | [] => []
  | RelayStep.read c :: r => c ++ readBytes r
  | _ :: r => readBytes r

/-- The bytes a trace writes to the destination, in order. -/
def writtenBytes : List RelayStep → List Nat
  | [] => []
  | RelayStep.write c :: r => c ++ writtenBytes r
  | _ :: r => writtenBytes r

/-- Whether a step closes one of the stream ends. -/
def isCloseStep : RelayStep → Bool
  | RelayStep.closeDest => true
  | RelayStep.closeSrc => true
  | _ => false

/-- Model of a parsed URL as used by the reverse-proxy director: the
fields the director reads from its target. -/
structure URLModel where
  scheme : String
  host : String
  path : String
  rawQuery : String
deriving DecidableEq, Repr

/-- Model of a non-CONNECT request as it reaches a forward handler. -/
structure RequestModel where
  method : String
  url : URLModel
  headers : List (String × String)
  body : List Nat
deriving DecidableEq, Repr

/-- Outcome of serving a request through the reverse proxy: either an
outbound request is issued (and its response copied back), or the
handler panics before any outbound request is made. -/
inductive ForwardOutcome where
  | forwarded (outboundReq : RequestModel)
  | panicked (msg : String)
deriving DecidableEq, Repr

/-- Embeds httputil's singleJoiningSlash: joins two paths with exactly
one slash between them. -/
def singleJoiningSlash (a b : String) : String :=
  if a.endsWith "/" ∧ b.startsWith "/" then a ++ b.drop 1
  else if ¬ a.endsWith "/" ∧ ¬ b.startsWith "/" then a ++ "/" ++ b
  else a ++ b

/-- Embeds net/http/httputil.NewSingleHostReverseProxy composed with
ReverseProxy.ServeHTTP: the constructed director rewrites the request
URL from the fields of the target URL (scheme, host, joined path, merged
query).  Reading those fields dereferences the target pointer, so when
the target is nil the handler panics with a nil-pointer runtime error
before any outbound request is made; the HTTP server recovers the panic
and aborts the connection, delivering no proxied response. -/
def singleHostReverseProxyServe (target : Option URLModel) (req : RequestModel) :
    ForwardOutcome :=
  match target with
  | none => ForwardOutcome.panicked "runtime error: invalid memory address or nil pointer dereference"
  | some t =>
    ForwardOutcome.forwarded
      { req with
        url :=
          { scheme := t.scheme
            host := t.host
            path := singleJoiningSlash t.path req.url.path
            rawQuery :=
              if t.rawQuery = "" ∨ req.url.rawQuery = "" then
                t.rawQuery ++ req.url.rawQuery
              else t.rawQuery ++ "&" ++ req.url.rawQuery } }

/-- Embeds handleProxyHTTP (src/main.go lines 144-149): it serves the
request with httputil.NewSingleHostReverseProxy(nil) over the
proxy-configured transport; the target passed is nil. -/
def handleProxyHTTP (req : RequestModel) : ForwardOutcome :=
  singleHostReverseProxyServe none req

/-- Embeds handleDirectHTTP (src/main.go lines 152-156): it serves the
request with httputil.NewSingleHostReverseProxy(nil) over the default
transport; the target passed is nil. -/
def handleDirectHTTP (req : RequestModel) : ForwardOutcome :=
  singleHostReverseProxyServe none req

theorem goSplit_length (sep : Char) (l : List Char) :
    (goSplit sep l).length = l.count sep + 1 := by
  induction l with
  | nil => simp [goSplit]
  | cons c cs ih =>
    by_cases h : c = sep
    · subst h
      simp [goSplit, List.count_cons, ih]
    · rcases hs : goSplit sep cs with _ | ⟨hd, tl⟩
      · rw [hs] at ih; simp at ih
      · rw [hs] at ih
        simp only [goSplit, if_neg h, hs]
        have hcc : (c :: cs).count sep = cs.count sep := by
          rw [List.count_cons]
          simp [h]
        simp only [List.length_cons] at ih ⊢
        omega

theorem goSplit_no_sep (sep : Char) (l : List Char) (h : sep ∉ l) :
    goSplit sep l = [l] := by
  induction l with
  | nil => rfl
  | cons c cs ih =>
    have hc : c ≠ sep := fun hc => h (hc ▸ List.mem_cons_self c cs)
    have hcs : sep ∉ cs := fun hm => h (List.mem_cons_of_mem c hm)
    simp [goSplit, if_neg hc, ih hcs]

theorem goSplit_one_sep (sep : Char) (p q : List Char)
    (hp : sep ∉ p) (hq : sep ∉ q) :
    goSplit sep (p ++ sep :: q) = [p, q] := by
  induction p with
  | nil => simp [goSplit, goSplit_no_sep sep q hq]
  | cons c cs ih =>
    have hc : c ≠ sep := fun hc => hp (hc ▸ List.mem_cons_self c cs)
    have hcs : sep ∉ cs := fun hm => hp (List.mem_cons_of_mem c hm)
    simp [goSplit, if_neg hc, ih hcs]

theorem parseProxyURL_error_none (s : String) : (parseProxyURL s).error = none := by
  unfold parseProxyURL
  dsimp only
  split
  · rfl
  · split <;> rfl

theorem parseProxyURL_many_sep (s : String) (h2 : 2 ≤ s.data.count '@') :
    parseProxyURL s = ⟨"", "", none⟩ := by
  have hlen : (goSplit '@' s.data).length = s.data.count '@' + 1 :=
    goSplit_length '@' s.data
  unfold parseProxyURL
  dsimp only
  rw [List.length_map, hlen]
  rw [if_neg (by omega), if_neg (by omega)]

/-- C10: parseProxyURL is total and never reports failure: for every input
the returned error is nil (so the error branches in its callers can never
be taken), and for any input containing two or more separator characters
it returns an empty server address and empty credentials. -/
theorem parseProxyURL_total (s : String) :
    (parseProxyURL s).error = none ∧
    (2 ≤ s.data.count '@' →
      (parseProxyURL s).server = "" ∧ (parseProxyURL s).user = "") := by
  refine ⟨parseProxyURL_error_none s, fun h2 => ?_⟩
  rw [parseProxyURL_many_sep s h2]
  exact ⟨rfl, rfl⟩

/-- Witness for C10 at a concrete malformed input with two separators. -/
theorem parseProxyURL_total_witness :
    2 ≤ ("x@y@z".data.count '@') ∧
    ((parseProxyURL "x@y@z").server = "" ∧ (parseProxyURL "x@y@z").user = "") :=
  ⟨by decide, (parseProxyURL_total "x@y@z").2 (by decide)⟩

/-- C2 counterexample: on an input with two separators the resolver does
NOT split on the last one.  Splitting "a@b@c" on the last separator
would give server "c" and credentials "a@b"; parseProxyURL instead
returns empty server and empty credentials. -/
theorem parseProxyURL_lastSplit_cex :
    (parseProxyURL "a@b@c").server = "" ∧
    (parseProxyURL "a@b@c").user = "" ∧
    ((parseProxyURL "a@b@c").server == "c") = false ∧
    ((parseProxyURL "a@b@c").user == "a@b") = false := by
  decide

/-- C2 amended: the resolver splits on the separator when the input holds
at most one of them.  With no separator the whole string is the address
and credentials are empty; with exactly one separator the part before it
is the credentials and the part after is the address (which coincides
with splitting on the last separator, there being only one); with two or
more separators both results are empty. -/
theorem parseProxyURL_cases (p q : List Char) (hp : '@' ∉ p) (hq : '@' ∉ q) :
    parseProxyURL (String.mk p) = ⟨String.mk p, "", none⟩ ∧
    parseProxyURL (String.mk (p ++ '@' :: q)) = ⟨String.mk q, String.mk p, none⟩ ∧
    (∀ s : String, 2 ≤ s.data.count '@' → parseProxyURL s = ⟨"", "", none⟩) := by
  refine ⟨?_, ?_, ?_⟩
  · unfold parseProxyURL
    dsimp only
    rw [goSplit_no_sep '@' p hp]
    rfl
  · unfold parseProxyURL
    dsimp only
    rw [goSplit_one_sep '@' p q hp hq]
    rfl
  · exact parseProxyURL_many_sep

/-- Witness for C2 at the spec's concrete examples. -/
theorem parseProxyURL_cases_witness :
    parseProxyURL "alice:secret@10.0.0.5:8080" = ⟨"10.0.0.5:8080", "alice:secret", none⟩ ∧
    parseProxyURL "10.0.0.5:8080" = ⟨"10.0.0.5:8080", "", none⟩ := by
  have h := parseProxyURL_cases ("alice:secret".data) ("10.0.0.5:8080".data)
    (by decide) (by decide)
  have h' := parseProxyURL_cases ("10.0.0.5:8080".data) [] (by decide) (by decide)
  refine ⟨?_, ?_⟩
  · have h2 := h.2.1
    rw [show String.mk ("alice:secret".data ++ '@' :: "10.0.0.5:8080".data)
        = "alice:secret@10.0.0.5:8080" from by decide] at h2
    exact h2
  · exact h'.1

theorem handleProxyTunneling_sent (cfg host : String) (env : ChainedEnv)
    (hd : env.dialOk = true) :
    (handleProxyTunneling cfg host env).sentUpstream
      = some (connectRequest host (parseProxyURL cfg).user) := by
  have he := parseProxyURL_error_none cfg
  obtain ⟨d, rs, hjs, hjo, msg⟩ := env
  simp only at hd
  subst hd
  cases rs with
  | none => simp [handleProxyTunneling, he]
  | some s =>
    by_cases h200 : s = 200
    · subst h200
      cases hjs <;> cases hjo <;> simp [handleProxyTunneling, he]
    · simp [handleProxyTunneling, he, h200]

/-- C3: whenever the chained handler reaches the upstream (the dial
succeeded), the CONNECT request it writes carries the
Proxy-Authorization Basic header with the standard base64 token exactly
when the resolved credentials are non-empty, is free of that header
(being precisely the bare CONNECT request) when they are empty, names
the original target host in its request line, and terminates with the
blank line. -/
theorem handleProxyTunneling_connectHeader (cfg host : String) (env : ChainedEnv)
    (hd : env.dialOk = true) :
    ∃ req, (handleProxyTunneling cfg host env).sentUpstream = some req ∧
      ((parseProxyURL cfg).user ≠ "" →
        req = "CONNECT " ++ host ++ " HTTP/1.1\r\nHost: " ++ host ++ "\r\n" ++
          ("Proxy-Authorization: Basic " ++
            base64StdEncode (parseProxyURL cfg).user ++ "\r\n") ++ "\r\n") ∧
      ((parseProxyURL cfg).user = "" →
        req = "CONNECT " ++ host ++ " HTTP/1.1\r\nHost: " ++ host ++ "\r\n" ++ "\r\n") ∧
      (∃ pre, req.data = pre ++ ['\r', '\n', '\r', '\n']) := by
  refine ⟨connectRequest host (parseProxyURL cfg).user,
    handleProxyTunneling_sent cfg host env hd, ?_, ?_, ?_⟩
  · intro hne
    unfold connectRequest authorizationHeader
    rw [if_pos hne]
  · intro heq
    unfold connectRequest authorizationHeader
    rw [heq]
    simp
  · by_cases hu : (parseProxyURL cfg).user = ""
    · refine ⟨("CONNECT " ++ host ++ " HTTP/1.1\r\nHost: " ++ host).data, ?_⟩
      unfold connectRequest authorizationHeader
      rw [hu]
      simp [String.data_append]
    · refine ⟨("CONNECT " ++ host ++ " HTTP/1.1\r\nHost: " ++ host ++
        "\r\nProxy-Authorization: Basic " ++
        base64StdEncode (parseProxyURL cfg).user).data, ?_⟩
      unfold connectRequest authorizationHeader
      rw [if_pos hu]
      simp [String.data_append]

/-- Witness for C3: with credentials alice:secret the upstream receives
exactly the CONNECT request with the Basic token, which is the known
base64 encoding YWxpY2U6c2VjcmV0. -/
theorem handleProxyTunneling_connectHeader_witness :
    (⟨true, some 200, true, true, ""⟩ : ChainedEnv).dialOk = true ∧
    (handleProxyTunneling "alice:secret@10.0.0.5:8080" "example.com:443"
        ⟨true, some 200, true, true, ""⟩).sentUpstream =
      some ("CONNECT example.com:443 HTTP/1.1\r\nHost: example.com:443\r\nProxy-Authorization: Basic YWxpY2U6c2VjcmV0\r\n\r\n") := by
  refine ⟨rfl, ?_⟩
  obtain ⟨req, hs, hne, _, _⟩ := handleProxyTunneling_connectHeader
    "alice:secret@10.0.0.5:8080" "example.com:443" ⟨true, some 200, true, true, ""⟩ rfl
  rw [hs, hne (by decide)]
  decide

/-- C4 counterexample: when the upstream answers 407, the client indeed
receives 407 and no relay starts, but the handler does NOT close the
upstream connection — no Close call is made on it in that branch, so
the claimed closing of both connections fails. -/
theorem handleProxyTunneling_non200_cex :
    committedStatus (handleProxyTunneling "user:pass@127.0.0.1:8080"
        "example.com:443" ⟨true, some 407, true, true, ""⟩) = some 407 ∧
    (handleProxyTunneling "user:pass@127.0.0.1:8080"
        "example.com:443" ⟨true, some 407, true, true, ""⟩).relayStarted = false ∧
    (handleProxyTunneling "user:pass@127.0.0.1:8080"
        "example.com:443" ⟨true, some 407, true, true, ""⟩).closedOutbound = false := by
  decide

/-- C4 amended: when the dial to the upstream succeeds and the upstream
responds with a status other than 200, the original client receives
exactly that status (it is the first and only status written), and no
relay is started; the handler however closes neither connection itself —
the upstream connection is simply abandoned and the client connection
stays with the HTTP server. -/
theorem handleProxyTunneling_non200 (cfg host : String) (env : ChainedEnv)
    (s : Nat) (hd : env.dialOk = true) (hr : env.respStatus = some s)
    (hs : s ≠ 200) :
    (handleProxyTunneling cfg host env).writes
        = [(s, "Failed to connect to the host through the second proxy")] ∧
    committedStatus (handleProxyTunneling cfg host env) = some s ∧
    (handleProxyTunneling cfg host env).relayStarted = false ∧
    (handleProxyTunneling cfg host env).closedOutbound = false := by
  have he := parseProxyURL_error_none cfg
  obtain ⟨d, rs, hjs, hjo, msg⟩ := env
  simp only at hd hr
  subst hd
  subst hr
  simp [handleProxyTunneling, he, committedStatus, hs]

/-- Witness for C4 at upstream status 407. -/
theorem handleProxyTunneling_non200_witness :
    ((⟨true, some 407, true, true, ""⟩ : ChainedEnv).dialOk = true ∧
      (⟨true, some 407, true, true, ""⟩ : ChainedEnv).respStatus = some 407 ∧
      (407 : Nat) ≠ 200) ∧
    ((handleProxyTunneling "u:p@10.0.0.5:8080" "h.example:443"
        ⟨true, some 407, true, true, ""⟩).writes
      = [(407, "Failed to connect to the host through the second proxy")] ∧
    committedStatus (handleProxyTunneling "u:p@10.0.0.5:8080" "h.example:443"
        ⟨true, some 407, true, true, ""⟩) = some 407 ∧
    (handleProxyTunneling "u:p@10.0.0.5:8080" "h.example:443"
        ⟨true, some 407, true, true, ""⟩).relayStarted = false ∧
    (handleProxyTunneling "u:p@10.0.0.5:8080" "h.example:443"
        ⟨true, some 407, true, true, ""⟩).closedOutbound = false) :=
  ⟨⟨rfl, rfl, by decide⟩,
    handleProxyTunneling_non200 "u:p@10.0.0.5:8080" "h.example:443"
      ⟨true, some 407, true, true, ""⟩ 407 rfl rfl (by decide)⟩

/-- C5 counterexample: the empty upstream specification is malformed (its
address is empty), yet the resolver reports no parse error: the returned
error is nil, not a failure the caller could turn into a 5xx. -/
theorem parseProxyURL_malformed_cex :
    (parseProxyURL "").server = "" ∧ (parseProxyURL "").error = none := by
  decide

/-- C5 amended: the resolver never reports a parse error for any input,
malformed or not (it is a total function returning nil error, so it also
never panics), and consequently the chained handler's parse-failure 5xx
branch is unreachable: no run of the handler ever writes the 500
parse-error response. -/
theorem handleProxyTunneling_no_parseError (cfg host : String) (env : ChainedEnv) :
    (parseProxyURL cfg).error = none ∧
    ((handleProxyTunneling cfg host env).writes.all
      (fun w => !(w == (500, "Failed to parse proxy URL")))) = true := by
  have he := parseProxyURL_error_none cfg
  refine ⟨he, ?_⟩
  obtain ⟨d, rs, hjs, hjo, msg⟩ := env
  cases d with
  | false => rcases rs with _ | s <;> simp [handleProxyTunneling, he]
  | true =>
    rcases rs with _ | s
    · simp [handleProxyTunneling, he]
    · by_cases h200 : s = 200
      · subst h200
        cases hjs <;> cases hjo <;> simp [handleProxyTunneling, he]
      · simp [handleProxyTunneling, he, h200]

/-- C7: when the outbound dial fails, the client receives 503 in both
modes (chained: dial to the upstream; direct: dial to the destination),
nothing is sent upstream, the dial is attempted exactly once (no retry)
and no relay starts; the direct-mode dial carries the fixed 10-second
establish timeout. -/
theorem tunneling_dialFail (cfg host hostd : String)
    (envC : ChainedEnv) (envD : DirectEnv)
    (hc : envC.dialOk = false) (hd : envD.dialOk = false) :
    (committedStatus (handleProxyTunneling cfg host envC) = some 503 ∧
      (handleProxyTunneling cfg host envC).relayStarted = false ∧
      (handleProxyTunneling cfg host envC).dialAttempts = 1 ∧
      (handleProxyTunneling cfg host envC).sentUpstream = none) ∧
    (committedStatus (handleDirectTunneling hostd envD) = some 503 ∧
      (handleDirectTunneling hostd envD).relayStarted = false ∧
      (handleDirectTunneling hostd envD).dialAttempts = 1 ∧
      (handleDirectTunneling hostd envD).dialTimeoutSecs = some 10) := by
  have he := parseProxyURL_error_none cfg
  obtain ⟨dC, rsC, hjsC, hjoC, msgC⟩ := envC
  obtain ⟨dD, hjsD, hjoD, msgD⟩ := envD
  simp only at hc hd
  subst hc
  subst hd
  refine ⟨?_, ?_⟩
  · simp [handleProxyTunneling, he, committedStatus]
  · simp [handleDirectTunneling, committedStatus]

/-- Witness for C7 with failing dials in both modes. -/
theorem tunneling_dialFail_witness :
    ((⟨false, none, true, true, ""⟩ : ChainedEnv).dialOk = false ∧
      (⟨false, true, true, ""⟩ : DirectEnv).dialOk = false) ∧
    ((committedStatus (handleProxyTunneling "u@h:1" "t.example:443"
        ⟨false, none, true, true, ""⟩) = some 503 ∧
      (handleProxyTunneling "u@h:1" "t.example:443"
        ⟨false, none, true, true, ""⟩).relayStarted = false ∧
      (handleProxyTunneling "u@h:1" "t.example:443"
        ⟨false, none, true, true, ""⟩).dialAttempts = 1 ∧
      (handleProxyTunneling "u@h:1" "t.example:443"
        ⟨false, none, true, true, ""⟩).sentUpstream = none) ∧
    (committedStatus (handleDirectTunneling "t.example:443"
        ⟨false, true, true, ""⟩) = some 503 ∧
      (handleDirectTunneling "t.example:443" ⟨false, true, true, ""⟩).relayStarted = false ∧
      (handleDirectTunneling "t.example:443" ⟨false, true, true, ""⟩).dialAttempts = 1 ∧
      (handleDirectTunneling "t.example:443" ⟨false, true, true, ""⟩).dialTimeoutSecs = some 10)) :=
  ⟨⟨rfl, rfl⟩,
    tunneling_dialFail "u@h:1" "t.example:443" "t.example:443"
      ⟨false, none, true, true, ""⟩ ⟨false, true, true, ""⟩ rfl rfl⟩

/-- C8 counterexample: a hijack failure that is not a capability failure
(the Hijack call itself errors) yields a 503 write, not 500: the
statuses written are 200 then 503 and 500 appears nowhere. -/
theorem tunneling_hijackFail_cex :
    ((handleDirectTunneling "example.com:443"
        ⟨true, true, false, "connection already hijacked"⟩).writes.map Prod.fst
      = [200, 503]) ∧
    (((handleDirectTunneling "example.com:443"
        ⟨true, true, false, "connection already hijacked"⟩).writes.map Prod.fst).contains 500
      = false) ∧
    (handleDirectTunneling "example.com:443"
        ⟨true, true, false, "connection already hijacked"⟩).relayStarted = false := by
  decide

/-- C8 amended: in both modes no relay is started when hijacking fails,
and the handler calls http.Error with 500 only when the ResponseWriter
does not support hijacking; when the Hijack call itself fails it calls
http.Error with 503 and the error text.  In either case the 200 header
has already been written, so the committed client-visible status is 200
rather than the error code. -/
theorem tunneling_hijackFail (cfg host hostd : String)
    (envC : ChainedEnv) (envD : DirectEnv) :
    (envC.dialOk = true → envC.respStatus = some 200 → envC.hijackSupported = false →
      (handleProxyTunneling cfg host envC).writes
          = [(200, ""), (500, "Hijacking not supported")] ∧
      committedStatus (handleProxyTunneling cfg host envC) = some 200 ∧
      (handleProxyTunneling cfg host envC).relayStarted = false) ∧
    (envC.dialOk = true → envC.respStatus = some 200 → envC.hijackSupported = true →
      envC.hijackOk = false →
      (handleProxyTunneling cfg host envC).writes
          = [(200, ""), (503, envC.hijackErrMsg)] ∧
      committedStatus (handleProxyTunneling cfg host envC) = some 200 ∧
      (handleProxyTunneling cfg host envC).relayStarted = false) ∧
    (envD.dialOk = true → envD.hijackSupported = false →
      (handleDirectTunneling hostd envD).writes
          = [(200, ""), (500, "Hijacking not supported")] ∧
      committedStatus (handleDirectTunneling hostd envD) = some 200 ∧
      (handleDirectTunneling hostd envD).relayStarted = false) ∧
    (envD.dialOk = true → envD.hijackSupported = true → envD.hijackOk = false →
      (handleDirectTunneling hostd envD).writes
          = [(200, ""), (503, envD.hijackErrMsg)] ∧
      committedStatus (handleDirectTunneling hostd envD) = some 200 ∧
      (handleDirectTunneling hostd envD).relayStarted = false) := by
  have he := parseProxyURL_error_none cfg
  obtain ⟨dC, rsC, hjsC, hjoC, msgC⟩ := envC
  obtain ⟨dD, hjsD, hjoD, msgD⟩ := envD
  refine ⟨?_, ?_, ?_, ?_⟩
  · intro h1 h2 h3
    simp only at h1 h2 h3
    subst h1; subst h2; subst h3
    simp [handleProxyTunneling, he, committedStatus]
  · intro h1 h2 h3 h4
    simp only at h1 h2 h3 h4
    subst h1; subst h2; subst h3; subst h4
    simp [handleProxyTunneling, he, committedStatus]
  · intro h1 h2
    simp only at h1 h2
    subst h1; subst h2
    simp [handleDirectTunneling, committedStatus]
  · intro h1 h2 h3
    simp only at h1 h2 h3
    subst h1; subst h2; subst h3
    simp [handleDirectTunneling, committedStatus]

/-- Witness for C8 exercising the unsupported-hijack case of the chained
handler and the failing-Hijack-call case of the direct handler. -/
theorem tunneling_hijackFail_witness :
    ((handleProxyTunneling "u:p@10.0.0.5:8080" "t.example:443"
        ⟨true, some 200, false, true, ""⟩).writes
        = [(200, ""), (500, "Hijacking not supported")] ∧
      committedStatus (handleProxyTunneling "u:p@10.0.0.5:8080" "t.example:443"
        ⟨true, some 200, false, true, ""⟩) = some 200 ∧
      (handleProxyTunneling "u:p@10.0.0.5:8080" "t.example:443"
        ⟨true, some 200, false, true, ""⟩).relayStarted = false) ∧
    ((handleDirectTunneling "t.example:443" ⟨true, true, false, "hijack failed"⟩).writes
        = [(200, ""), (503, "hijack failed")] ∧
      committedStatus (handleDirectTunneling "t.example:443"
        ⟨true, true, false, "hijack failed"⟩) = some 200 ∧
      (handleDirectTunneling "t.example:443"
        ⟨true, true, false, "hijack failed"⟩).relayStarted = false) :=
  ⟨(tunneling_hijackFail "u:p@10.0.0.5:8080" "t.example:443" "t.example:443"
      ⟨true, some 200, false, true, ""⟩ ⟨true, true, false, "hijack failed"⟩).1
      rfl rfl rfl,
    (tunneling_hijackFail "u:p@10.0.0.5:8080" "t.example:443" "t.example:443"
      ⟨true, some 200, false, true, ""⟩ ⟨true, true, false, "hijack failed"⟩).2.2.2
      rfl rfl rfl⟩

/-- C1: each relay direction is byte-exact and order-preserving: whatever
chunks the source produces before ending (at end-of-stream or error),
the destination receives exactly the bytes read from the source, in the
same order, namely the concatenation of the source's chunks. -/
theorem transfer_byteExact (chunks : List (List Nat)) (e : StreamEnd) :
    writtenBytes (transfer chunks e) = readBytes (transfer chunks e) ∧
    readBytes (transfer chunks e) = chunks.flatten := by
  induction chunks with
  | nil => simp [transfer, readBytes, writtenBytes]
  | cons c rest ih =>
    refine ⟨?_, ?_⟩
    · simp only [transfer, readBytes, writtenBytes]
      rw [ih.1]
    · simp only [transfer, readBytes, writtenBytes, List.flatten_cons]
      rw [ih.2]

/-- C9: every relay direction, once its copy completes — whether the
source ended cleanly or with an I/O error — closes both stream ends it
holds: its trace is the copy actions (none of which is a close) followed
by exactly the Close of the source and the Close of the destination. -/
theorem transfer_closesBoth (chunks : List (List Nat)) (e : StreamEnd) :
    ∃ pre, transfer chunks e = pre ++ [RelayStep.closeSrc, RelayStep.closeDest] ∧
      pre.all (fun st => !isCloseStep st) = true := by
  induction chunks with
  | nil => exact ⟨[], rfl, rfl⟩
  | cons c rest ih =>
    obtain ⟨pre, hpre, hall⟩ := ih
    refine ⟨RelayStep.read c :: RelayStep.write c :: pre, ?_, ?_⟩
    · simp [transfer, hpre]
    · simp only [List.all_cons, isCloseStep, Bool.not_false, Bool.true_and]
      exact hall

/-- C6 (code bug): both forward handlers construct the reverse proxy
with a nil target URL, so every non-CONNECT request makes the director
dereference nil and panic: no request is ever forwarded and no response
is ever copied back, on either endpoint. -/
theorem forwardHandlers_panic (req : RequestModel) :
    handleProxyHTTP req
        = ForwardOutcome.panicked
            "runtime error: invalid memory address or nil pointer dereference" ∧
    handleDirectHTTP req
        = ForwardOutcome.panicked
            "runtime error: invalid memory address or nil pointer dereference" :=
  ⟨rfl, rfl⟩
